import Mathlib

/-!
Verification of the Facet deposit-derivation core of this repository.

The Rust sources embedded here (shallowly, as executable Lean functions) are:
  * crates/protocol/protocol/src/facet.rs       (alias_l1_to_l2, decode_facet_payload, into_deposit)
  * crates/protocol/protocol/src/fct_mint.rs    (FctMintCalculator)
  * crates/protocol/derive/src/helpers/facet_deposits.rs (derive_facet_deposits)

Modelling conventions:
  * Machine integers are `Nat` with explicit `% 2 ^ w` wherever the Rust
    arithmetic can wrap.  Arithmetic follows release-mode semantics (wrapping
    on overflow, `debug_assert!` compiled out); `clamp`, whose `assert!` is
    active in every build profile, is modelled by returning `none` when its
    lower bound exceeds its upper bound.  A `none` result denotes a panic.
  * Byte strings are `List (Fin 256)`; 20-byte addresses are `Fin (2 ^ 160)`
    (their unsigned big-endian value); 32-byte hashes/topics are `Nat`
    (only ever compared for equality).
  * The external crate `alloy_rlp` (used through `#[derive(RlpDecodable)]` on
    `FacetPayloadRlp`) is embedded by `decodeHeader` / `decodeBytesField` /
    `decodeUintField` / `decodeFacetPayloadRlp` below, following the crate's
    documented canonical-RLP rules.
  * `recover_signer()` is an external secp256k1 operation; its result is
    carried as a field of the transaction-envelope model.
-/

set_option maxRecDepth 10000

deriving instance DecidableEq for Except

namespace Kona

/-- A byte. -/
abbrev Byte := Fin 256

/-- A 20-byte address, as its unsigned big-endian 160-bit value. -/
abbrev Address := Fin (2 ^ 160)

/-- `Address::default()` / `Address::ZERO`. -/
def Address.zero : Address := ⟨0, by positivity⟩

/-- Unsigned big-endian value of a byte string. -/
def beBytesToNat (l : List Byte) : Nat := l.foldl (fun acc b => acc * 256 + b.val) 0

/-- `Address::from_slice` on a byte string known to have length 20. -/
def addressOfBytes20 (l : List Byte) : Address :=
  ⟨beBytesToNat l % 2 ^ 160, Nat.mod_lt _ (by positivity)⟩

/-! ## alloy_rlp decoding (external crate, embedded) -/

/-- Errors of the `alloy_rlp` decoder (plus the facet-level invalid-`to`
formatted message); all of these are surfaced as `DecodeError.Rlp`. -/
inductive RlpError
  | inputTooShort
  | nonCanonicalSingleByte
  | nonCanonicalSize
  | leadingZero
  | overflow
  | unexpectedString
  | unexpectedList
  | listLengthMismatch
  | invalidToLength (n : Nat)
  deriving DecidableEq, Repr

/-- An RLP item header: whether the item is a list, and its payload length. -/
structure RlpHeader where
  isList : Bool
  payloadLength : Nat
  deriving DecidableEq, Repr

/-- `alloy_rlp::Header::decode`.  Returns the header together with the buffer
positioned at the first payload byte (a single byte `< 0x80` is its own
payload, so the buffer is not advanced past it). -/
def decodeHeader (buf : List Byte) : Except RlpError (RlpHeader × List Byte) := do
  let (h, rest) ← (do
    match buf with
    | [] => .error .inputTooShort
    | b :: rest =>
      if b.val < 0x80 then
        .ok (RlpHeader.mk false 1, b :: rest)
      else if b.val ≤ 0xB7 then
        let len := b.val - 0x80
        if len = 1 then
          match rest with
          | [] => .error .inputTooShort
          | h :: _ =>
            if h.val < 0x80 then .error .nonCanonicalSingleByte
            else .ok (RlpHeader.mk false 1, rest)
        else .ok (RlpHeader.mk false len, rest)
      else if b.val ≤ 0xBF then
        let lenOfLen := b.val - 0xB7
        if rest.length < lenOfLen then .error .inputTooShort
        else if (rest.take lenOfLen).head?.any (fun h => h.val = 0) then .error .leadingZero
        else
          let len := beBytesToNat (rest.take lenOfLen)
          if len < 56 then .error .nonCanonicalSize
          else .ok (RlpHeader.mk false len, rest.drop lenOfLen)
      else if b.val ≤ 0xF7 then
        .ok (RlpHeader.mk true (b.val - 0xC0), rest)
      else
        let lenOfLen := b.val - 0xF7
        if rest.length < lenOfLen then .error .inputTooShort
        else if (rest.take lenOfLen).head?.any (fun h => h.val = 0) then .error .leadingZero
        else
          let len := beBytesToNat (rest.take lenOfLen)
          if len < 56 then .error .nonCanonicalSize
          else .ok (RlpHeader.mk true len, rest.drop lenOfLen) :
    Except RlpError (RlpHeader × List Byte))
  if rest.length < h.payloadLength then .error .inputTooShort
  else .ok (h, rest)

/-- `alloy_rlp::Header::decode_bytes(buf, false)`: a string item's payload and
the remaining buffer. -/
def decodeBytesField (buf : List Byte) : Except RlpError (List Byte × List Byte) := do
  let (h, rest) ← decodeHeader buf
  if h.isList then .error .unexpectedList
  else .ok (rest.take h.payloadLength, rest.drop h.payloadLength)

/-- `alloy_rlp` unsigned-integer decoding (`static_left_pad` semantics):
at most `maxBytes` big-endian bytes, no leading zero. -/
def decodeUintField (maxBytes : Nat) (buf : List Byte) : Except RlpError (Nat × List Byte) := do
  let (bytes, rest) ← decodeBytesField buf
  if maxBytes < bytes.length then .error .overflow
  else if bytes.head?.any (fun h => h.val = 0) then .error .leadingZero
  else .ok (beBytesToNat bytes, rest)

/-- `FacetPayloadRlp` (facet.rs): `[chain_id, to, value, gas_limit, data, mine_boost]`. -/
structure FacetPayloadRlp where
  chain_id : Nat
  «to» : List Byte
  value : Nat
  gas_limit : Nat
  data : List Byte
  mine_boost : List Byte
  deriving DecidableEq, Repr

/-- The `#[derive(RlpDecodable)]` decoder for `FacetPayloadRlp`: a list header,
six fields in order, and the fields must consume the list payload exactly. -/
def decodeFacetPayloadRlp (buf : List Byte) :
    Except RlpError (FacetPayloadRlp × List Byte) := do
  let (h, rest) ← decodeHeader buf
  if h.isList = false then .error .unexpectedString
  else
    let startedLen := rest.length
    let (cid, r1) ← decodeUintField 8 rest
    let (toF, r2) ← decodeBytesField r1
    let (val, r3) ← decodeUintField 32 r2
    let (gas, r4) ← decodeUintField 8 r3
    let (dat, r5) ← decodeBytesField r4
    let (mb, r6) ← decodeBytesField r5
    if startedLen - r6.length ≠ h.payloadLength then .error .listLengthMismatch
    else .ok (FacetPayloadRlp.mk cid toF val gas dat mb, r6)

/-! ## FctMintCalculator (fct_mint.rs) -/

namespace FctMintCalculator

/-- Number of blocks in an adjustment period. -/
def ADJUSTMENT_PERIOD : Nat := 10000

/-- Seconds per Gregorian year. -/
def SECONDS_PER_YEAR : Nat := 31556952

/-- Halving period in seconds. -/
def HALVING_PERIOD_IN_SECONDS : Nat := 1 * SECONDS_PER_YEAR

/-- L2 block time in seconds. -/
def L2_BLOCK_TIME : Nat := 12

/-- Raw halving period in blocks. -/
def RAW_HALVING_PERIOD_IN_BLOCKS : Nat := HALVING_PERIOD_IN_SECONDS / L2_BLOCK_TIME

/-- Number of adjustment periods per halving. -/
def ADJUSTMENT_PERIODS_PER_HALVING : Nat := RAW_HALVING_PERIOD_IN_BLOCKS / ADJUSTMENT_PERIOD

/-- Actual halving period in blocks (rounded to adjustment periods). -/
def HALVING_PERIOD_IN_BLOCKS : Nat := ADJUSTMENT_PERIOD * ADJUSTMENT_PERIODS_PER_HALVING

/-- Target FCT mint per L1 block (40 ETH in wei). -/
def TARGET_FCT_MINT_PER_L1_BLOCK : Nat := 40000000000000000000

/-- Target mint per adjustment period. -/
def TARGET_MINT_PER_PERIOD : Nat := TARGET_FCT_MINT_PER_L1_BLOCK * ADJUSTMENT_PERIOD

/-- Maximum adjustment factor for rate changes. -/
def MAX_ADJUSTMENT_FACTOR : Nat := 2

/-- Initial mint rate (800,000 gwei). -/
def INITIAL_RATE : Nat := 800000000000000

/-- Maximum mint rate (10,000,000 gwei). -/
def MAX_RATE : Nat := 10000000000000000

/-- Minimum mint rate. -/
def MIN_RATE : Nat := 1

/-- `halving_periods_passed`. -/
def halving_periods_passed (current_l2_block : Nat) : Nat :=
  current_l2_block / HALVING_PERIOD_IN_BLOCKS

/-- `halving_factor`: `2_u128.pow(periods as u32)`; the `as u32` cast and the
release-mode `pow` overflow both wrap. -/
def halving_factor (l2_block_number : Nat) : Nat :=
  2 ^ (halving_periods_passed l2_block_number % 2 ^ 32) % 2 ^ 128

/-- `is_first_block_in_period`. -/
def is_first_block_in_period (l2_block_number : Nat) : Bool :=
  l2_block_number % ADJUSTMENT_PERIOD == 0

/-- `halving_adjusted_target`. -/
def halving_adjusted_target (l2_block_number : Nat) : Nat :=
  let factor := halving_factor l2_block_number
  if factor = 0 then 0 else TARGET_MINT_PER_PERIOD / factor

/-- `new_rate.clamp(min_allowed_rate, max_allowed_rate)` with the two bounds of
`compute_new_rate`.  Rust's `clamp` asserts `min <= max` in every build
profile, so an empty interval is a panic (`none`).  `prev_rate * 2` is u128
arithmetic and wraps. -/
def clampRate (new_rate prev_rate : Nat) : Option Nat :=
  if min (prev_rate * MAX_ADJUSTMENT_FACTOR % 2 ^ 128) MAX_RATE <
      max (prev_rate / MAX_ADJUSTMENT_FACTOR) MIN_RATE then none
  else
    some (max (max (prev_rate / MAX_ADJUSTMENT_FACTOR) MIN_RATE)
      (min (min (prev_rate * MAX_ADJUSTMENT_FACTOR % 2 ^ 128) MAX_RATE) new_rate))

/-- `compute_new_rate`; `none` denotes a panic inside `clamp`. -/
def compute_new_rate (l2_block_number prev_rate cumulative_l1_data_gas : Nat) : Option Nat :=
  if is_first_block_in_period l2_block_number then
    if cumulative_l1_data_gas = 0 then
      clampRate MAX_RATE prev_rate
    else if halving_adjusted_target l2_block_number = 0 then
      some 0
    else
      clampRate (halving_adjusted_target l2_block_number / cumulative_l1_data_gas) prev_rate
  else
    some prev_rate

/-- `calculate_data_gas_used`; the counts are `usize` (64-bit) products. -/
def calculate_data_gas_used (input_data : List Byte) (contract_initiated : Bool) : Nat :=
  if contract_initiated then
    input_data.length * 8 % 2 ^ 64
  else
    let zero_count := (input_data.filter (fun b => b.val = 0)).length
    let non_zero_count := input_data.length - zero_count
    (zero_count * 4 + non_zero_count * 16) % 2 ^ 64

/-- `calculate_mint_amount`: saturating u128 multiplication. -/
def calculate_mint_amount (l1_data_gas_used mint_rate : Nat) : Nat :=
  min (l1_data_gas_used * mint_rate) (2 ^ 128 - 1)

end FctMintCalculator

/-! ## Facet payload codec (facet.rs) -/

/-- Prefix byte identifying a Facet payload. -/
def FACET_TX_TYPE : Byte := 0x46

/-- `ALIAS_OFFSET = 0x1111000000000000000000000000000000001111`. -/
def ALIAS_OFFSET : Nat := 0x1111000000000000000000000000000000001111

/-- `alias_l1_to_l2`: add the offset to the address value, modulo `2^160`. -/
def alias_l1_to_l2 (addr : Address) : Address :=
  ⟨(addr.val + ALIAS_OFFSET) % 2 ^ 160, Nat.mod_lt _ (by positivity)⟩

/-- `DecodeError` of `decode_facet_payload`.  The source's `Rlp(String)`
carries a formatted message; we carry the structured `RlpError` instead
(the invalid-`to`-length message becomes `RlpError.invalidToLength`). -/
inductive DecodeError
  | Short
  | WrongPrefix (b : Byte)
  | Rlp (e : RlpError)
  | BadChainId (got expected : Nat)
  deriving DecidableEq, Repr

/-- Decoded Facet payload. -/
structure FacetPayload where
  «to» : Option Address
  value : Nat
  gas_limit : Nat
  data : List Byte
  l1_data_gas_used : Nat
  mint : Nat
  deriving DecidableEq, Repr

/-- `decode_facet_payload`. -/
def decode_facet_payload (bytes : List Byte) (l2_chain_id : Nat)
    (contract_initiated : Bool) : Except DecodeError FacetPayload :=
  match bytes with
  | [] => .error .Short
  | b :: rest =>
    if b ≠ FACET_TX_TYPE then .error (.WrongPrefix b)
    else
      match decodeFacetPayloadRlp rest with
      | .error e => .error (.Rlp e)
      | .ok (rp, _) =>
        if rp.chain_id ≠ l2_chain_id then .error (.BadChainId rp.chain_id l2_chain_id)
        else if rp.«to».length = 0 then
          .ok (FacetPayload.mk none rp.value rp.gas_limit rp.data
            (FctMintCalculator.calculate_data_gas_used bytes contract_initiated) 0)
        else if rp.«to».length = 20 then
          .ok (FacetPayload.mk (some (addressOfBytes20 rp.«to»)) rp.value rp.gas_limit rp.data
            (FctMintCalculator.calculate_data_gas_used bytes contract_initiated) 0)
        else .error (.Rlp (.invalidToLength rp.«to».length))

/-- The deposit transaction assembled by `FacetPayload::into_deposit`
(op-alloy `TxDeposit`); `to = none` models `TxKind::Create`.  The source
additionally EIP-2718-encodes each deposit (`0x7e || RLP(fields)`); the claims
all concern the decoded fields, so the model stops at the structure. -/
structure TxDeposit where
  source_hash : Nat
  «from» : Address
  «to» : Option Address
  mint : Option Nat
  value : Nat
  gas_limit : Nat
  is_system_transaction : Bool
  input : List Byte
  deriving DecidableEq, Repr

/-- `FacetPayload::into_deposit`. -/
def FacetPayload.into_deposit (self : FacetPayload) (fromAddr : Address)
    (source_hash : Nat) : TxDeposit :=
  TxDeposit.mk source_hash fromAddr self.«to» (some self.mint) self.value
    self.gas_limit false self.data

/-! ## L1 transactions, receipts, logs (alloy types as read by the core) -/

/-- The envelope variants distinguished by `derive_facet_deposits`; `other`
stands for any variant outside the four supported ones. -/
inductive TxVariant
  | legacy
  | eip2930
  | eip1559
  | eip4844
  | other
  deriving DecidableEq, Repr

/-- An L1 transaction envelope, restricted to what the core reads: its
variant, `to`, `input`, its hash, and the result of `recover_signer()`
(an external secp256k1 operation, carried as data; `none` models `Err`). -/
structure TxEnvelope where
  variant : TxVariant
  «to» : Option Address
  input : List Byte
  recovered_signer : Option Address
  hash : Nat
  deriving DecidableEq, Repr

/-- A receipt log: emitter address, topics (32-byte values), data. -/
structure Log where
  address : Address
  topics : List Nat
  data : List Byte
  deriving DecidableEq, Repr

/-- `alloy_consensus::Eip658Value`. -/
inductive Eip658Value
  | eip658 (success : Bool)
  | postState (hash : Nat)
  deriving DecidableEq, Repr

/-- An L1 receipt, restricted to what the core reads. -/
structure Receipt where
  status : Eip658Value
  logs : List Log
  deriving DecidableEq, Repr

/-- Modelled from the spec: `FACET_INBOX_ADDRESS` is "a fixed 20-byte
well-known address (configuration constant)"; its definition is exported by
`kona_protocol` but its concrete value is not part of the sources at hand, so
a fixed constant stands in.  Every claim depends only on equality with it. -/
def FACET_INBOX_ADDRESS : Address := ⟨0x00000000000000000000000000000000000face7, by norm_num⟩

/-- Modelled from the spec: `FACET_LOG_INBOX_EVENT_SIG` is "a fixed 32-byte
topic-0 identifier"; as with the inbox address, a fixed constant stands in and
every claim depends only on equality with it. -/
def FACET_LOG_INBOX_EVENT_SIG : Nat :=
  0x87a54bbbb5a3f0187fdd1f024e5c47b1c07c427e715dbf404a0cfc237dcdbe25

/-! ## derive_facet_deposits (facet_deposits.rs) -/

/-- The tx hash read by the derivation loop: unknown variants yield
`B256::ZERO`. -/
def effectiveHash (tx : TxEnvelope) : Nat :=
  match tx.variant with
  | .other => 0
  | _ => tx.hash

/-- The `(maybe_to, input)` view of an envelope: unknown variants yield
`(None, empty)`. -/
def effectiveToInput (tx : TxEnvelope) : Option Address × List Byte :=
  match tx.variant with
  | .other => (none, [])
  | _ => (tx.«to», tx.input)

/-- One iteration of the extraction loop of `derive_facet_deposits` (the body
of the `for (tx, receipt)` loop): at most one payload, with its attributed
`from` and source-hash seed, per transaction. -/
def extractFacetPayload (l2_chain_id : Nat) (tx : TxEnvelope) (receipt : Receipt) :
    Option (FacetPayload × Address × Nat) :=
  if receipt.status ≠ .eip658 true then none
  else if (effectiveToInput tx).1 = some FACET_INBOX_ADDRESS ∧ (effectiveToInput tx).2 ≠ [] then
    match decode_facet_payload (effectiveToInput tx).2 l2_chain_id false with
    | .ok payload => some (payload, tx.recovered_signer.getD Address.zero, effectiveHash tx)
    | .error _ => none
  else
    match receipt.logs.find? (fun l => l.topics.head? == some FACET_LOG_INBOX_EVENT_SIG) with
    | some log =>
      match decode_facet_payload log.data l2_chain_id true with
      | .ok payload => some (payload, alias_l1_to_l2 log.address, effectiveHash tx)
      | .error _ => none
    | none => none

/-- Step 1 of `derive_facet_deposits`: the extracted `(payload, from, hash)`
triples, in L1 order.  `Iterator::zip` pairs the two sequences up to the
shorter one (the `debug_assert_eq!` on the lengths is compiled out in
release builds). -/
def extractedPayloads (txs : List TxEnvelope) (receipts : List Receipt)
    (l2_chain_id : Nat) : List (FacetPayload × Address × Nat) :=
  (txs.zip receipts).filterMap (fun tr => extractFacetPayload l2_chain_id tr.1 tr.2)

/-- `derive_facet_deposits`.  Returns `(deposits, new_rate, new_cum_gas)`;
`none` denotes a panic propagated from `compute_new_rate`.  The batch gas is
summed in `u64` (wrapping) and then cast to `u128`; the cumulative carry is a
`u128` addition (wrapping). -/
def derive_facet_deposits (txs : List TxEnvelope) (receipts : List Receipt)
    (l2_chain_id l2_block_number fct_mint_rate fct_mint_period_l1_data_gas : Nat) :
    Option (List TxDeposit × Nat × Nat) :=
  let facet_payloads := extractedPayloads txs receipts l2_chain_id
  match FctMintCalculator.compute_new_rate l2_block_number fct_mint_rate
      fct_mint_period_l1_data_gas with
  | none => none
  | some new_mint_rate =>
    let minted := facet_payloads.map (fun x =>
      ({ x.1 with mint := (FctMintCalculator.calculate_mint_amount
          x.1.l1_data_gas_used new_mint_rate) }, x.2))
    let batch_l1_data_gas := (facet_payloads.map (fun x => x.1.l1_data_gas_used)).sum % 2 ^ 64
    let new_cumulative_l1_data_gas :=
      if FctMintCalculator.is_first_block_in_period l2_block_number then
        batch_l1_data_gas
      else
        (fct_mint_period_l1_data_gas + batch_l1_data_gas) % 2 ^ 128
    some (minted.map (fun x => x.1.into_deposit x.2.1 x.2.2), new_mint_rate,
      new_cumulative_l1_data_gas)

/-! ## Concrete inputs (the spec's Scenario A and variations) -/

/-- Scenario A's calldata:
`0x46e283face7a94111111111111111111111111111111111111111180830f424082123480`. -/
def bytesA : List Byte :=
  [0x46, 0xe2, 0x83, 0xfa, 0xce, 0x7a, 0x94,
   0x11, 0x11, 0x11, 0x11, 0x11, 0x11, 0x11, 0x11, 0x11, 0x11,
   0x11, 0x11, 0x11, 0x11, 0x11, 0x11, 0x11, 0x11, 0x11, 0x11,
   0x80, 0x83, 0x0f, 0x42, 0x40, 0x82, 0x12, 0x34, 0x80]

/-- An arbitrary recovered signer for the concrete scenarios. -/
def signerA : Address := ⟨0xaaaaaaaaaaaaaaaaaaaaaaaaaaaaaaaaaaaaaaaa, by norm_num⟩

/-- Scenario A's L1 transaction: a successful Legacy transaction to the inbox
carrying `bytesA`. -/
def txA : TxEnvelope :=
  TxEnvelope.mk .legacy (some FACET_INBOX_ADDRESS) bytesA (some signerA) 0xabcd

/-- A success receipt with no logs. -/
def receiptOkNoLogs : Receipt := Receipt.mk (.eip658 true) []

/-- The payload `bytesA` decodes to (calldata path, before mint assignment). -/
def payloadA : FacetPayload :=
  FacetPayload.mk (some ⟨0x1111111111111111111111111111111111111111, by norm_num⟩)
    0 1000000 [0x12, 0x34] 576 0

/-- Scenario B's emitter address. -/
def emitterB : Address := ⟨0xdb8dc4ac38c094746529a14be18d99c18ecaedac, by norm_num⟩

/-- A log whose topic-0 is the inbox event signature and whose data is
Scenario A's payload bytes. -/
def logB : Log := Log.mk emitterB [FACET_LOG_INBOX_EVENT_SIG] bytesA

/-- A success receipt carrying `logB`. -/
def receiptWithLog : Receipt := Receipt.mk (.eip658 true) [logB]

/-- The `to` address of Scenario A's payload. -/
def addr11 : Address := ⟨0x1111111111111111111111111111111111111111, by norm_num⟩

/-- What `bytesA` decodes to on the log path (`contract_initiated = true`,
so `l1_data_gas_used = 36 * 8 = 288`). -/
def payloadALog : FacetPayload :=
  FacetPayload.mk (some addr11) 0 1000000 [0x12, 0x34] 288 0

/-- The deposit derived from `txA` at rate `INITIAL_RATE`. -/
def depositA : TxDeposit :=
  TxDeposit.mk 0xabcd signerA (some addr11) (some 460800000000000000) 0 1000000 false
    [0x12, 0x34]

/-- A successful transaction to the inbox whose calldata is not a Facet
payload (wrong prefix `0xde`). -/
def txBadCalldata : TxEnvelope :=
  TxEnvelope.mk .legacy (some FACET_INBOX_ADDRESS) [0xde] (some signerA) 0x1234

/-- A transaction of an unsupported envelope variant (its `to`, `input`,
signer and hash fields are never read by the core). -/
def txOther : TxEnvelope := TxEnvelope.mk .other (some emitterB) [0x01] (some signerA) 0x77

/-- The canonical view the loop takes of an unsupported variant: no `to`,
empty input, zero hash. -/
def strippedTx : TxEnvelope := TxEnvelope.mk .legacy none [] none 0

/-! ## Helper lemmas -/

theorem effectiveToInput_of_supported (tx : TxEnvelope) (h : tx.variant ≠ .other) :
    effectiveToInput tx = (tx.«to», tx.input) := by
  unfold effectiveToInput
  cases hv : tx.variant <;> first | rfl | exact absurd hv h

theorem effectiveHash_of_supported (tx : TxEnvelope) (h : tx.variant ≠ .other) :
    effectiveHash tx = tx.hash := by
  unfold effectiveHash
  cases hv : tx.variant <;> first | rfl | exact absurd hv h

theorem clampRate_isSome (new_rate prev_rate : Nat) (h1 : 1 ≤ prev_rate)
    (h2 : prev_rate ≤ FctMintCalculator.MAX_RATE) :
    (FctMintCalculator.clampRate new_rate prev_rate).isSome := by
  unfold FctMintCalculator.clampRate FctMintCalculator.MAX_ADJUSTMENT_FACTOR
    FctMintCalculator.MAX_RATE FctMintCalculator.MIN_RATE
  unfold FctMintCalculator.MAX_RATE at h2
  have hnw : prev_rate * 2 % 2 ^ 128 = prev_rate * 2 :=
    Nat.mod_eq_of_lt (by nlinarith [Nat.two_pow_pos 128])
  rw [hnw]
  have hle : ¬ min (prev_rate * 2) 10000000000000000 < max (prev_rate / 2) 1 := by omega
  simp [hle]

theorem zip_replicate {α β : Type} (n : Nat) (a : α) (b : β) :
    (List.replicate n a).zip (List.replicate n b) = List.replicate n (a, b) := by
  induction n with
  | zero => rfl
  | succ n ih => simp [List.replicate_succ, ih]

theorem filterMap_replicate_some {α β : Type} (f : α → Option β) (a : α) (y : β)
    (h : f a = some y) (n : Nat) :
    (List.replicate n a).filterMap f = List.replicate n y := by
  induction n with
  | zero => rfl
  | succ n ih => simp [List.replicate_succ, List.filterMap_cons, h, ih]

/-! ## Claims -/

/-- C2: a single successful Legacy transaction to the inbox carrying Scenario
A's calldata, at `l2_chain_id = 16436858`, `l2_block = 1`,
`prev_rate = INITIAL_RATE`, `prev_cum_gas = 0`, derives exactly one deposit
with `to = 0x1111…1111`, `gas_limit = 1_000_000`, `value = 0`,
`data = 0x1234`, `mint = 460_800_000_000_000_000 = 576 * INITIAL_RATE`, where
`576` is the payload's data gas (36 non-zero bytes at 16 gas each). -/
theorem c2_scenario_a :
    derive_facet_deposits [txA] [receiptOkNoLogs] 16436858 1
        FctMintCalculator.INITIAL_RATE 0 =
      some ([depositA], FctMintCalculator.INITIAL_RATE, 576) ∧
    decode_facet_payload bytesA 16436858 false = .ok payloadA ∧
    payloadA.l1_data_gas_used = 576 ∧
    FctMintCalculator.calculate_data_gas_used bytesA false = 576 ∧
    bytesA.length = 36 ∧ (bytesA.filter (fun b => b.val = 0)).length = 0 ∧
    depositA.mint = some (576 * FctMintCalculator.INITIAL_RATE) := by
  refine ⟨by decide, by decide, by decide, by decide, by decide, by decide, by decide⟩

/-- C4 counterexample: at the period-boundary block 206_980_000 (79 halving
periods, so `halving_adjusted_target = 0`) with `prev_cum_gas = 5` and
`prev_rate = INITIAL_RATE`, `compute_new_rate` returns 0, while the claimed
clamp formula evaluates to `max(prev_rate/2, 1) = 400_000_000_000_000`; in
particular the result lies outside the claimed interval. -/
theorem c4_counterexample :
    206980000 % 10000 = 0 ∧
    FctMintCalculator.compute_new_rate 206980000 FctMintCalculator.INITIAL_RATE 5 = some 0 ∧
    FctMintCalculator.halving_adjusted_target 206980000 = 0 ∧
    max (max (FctMintCalculator.INITIAL_RATE / 2) 1)
      (min (min (FctMintCalculator.INITIAL_RATE * 2) FctMintCalculator.MAX_RATE)
        (FctMintCalculator.halving_adjusted_target 206980000 / 5)) = 400000000000000 ∧
    (0 : Nat) ≠ 400000000000000 := by
  refine ⟨by norm_num, by decide, by decide, by decide, by decide⟩

/-- C4 (amended): at a period-boundary block, with `candidate = MAX_RATE` when
`prev_cum_gas = 0` and `candidate = halving_adjusted_target / prev_cum_gas`
otherwise, `compute_new_rate` returns
`clamp(candidate, max(prev_rate/2, 1), min(prev_rate*2 mod 2^128, MAX_RATE))`
— except that when `prev_cum_gas ≠ 0` and `halving_adjusted_target = 0` it
returns 0 without clamping, and when the clamp's lower bound exceeds its
upper bound it panics instead of returning. -/
theorem c4_amended_rate_clamp :
    ∀ blk prev_rate prev_cum_gas : Nat, blk % 10000 = 0 →
    (prev_cum_gas ≠ 0 → FctMintCalculator.halving_adjusted_target blk = 0 →
      FctMintCalculator.compute_new_rate blk prev_rate prev_cum_gas = some 0) ∧
    (prev_cum_gas = 0 →
      max (prev_rate / 2) 1 ≤ min (prev_rate * 2 % 2 ^ 128) FctMintCalculator.MAX_RATE →
      FctMintCalculator.compute_new_rate blk prev_rate prev_cum_gas =
        some (max (max (prev_rate / 2) 1)
          (min (min (prev_rate * 2 % 2 ^ 128) FctMintCalculator.MAX_RATE)
            FctMintCalculator.MAX_RATE))) ∧
    (prev_cum_gas ≠ 0 → FctMintCalculator.halving_adjusted_target blk ≠ 0 →
      max (prev_rate / 2) 1 ≤ min (prev_rate * 2 % 2 ^ 128) FctMintCalculator.MAX_RATE →
      FctMintCalculator.compute_new_rate blk prev_rate prev_cum_gas =
        some (max (max (prev_rate / 2) 1)
          (min (min (prev_rate * 2 % 2 ^ 128) FctMintCalculator.MAX_RATE)
            (FctMintCalculator.halving_adjusted_target blk / prev_cum_gas)))) ∧
    ((prev_cum_gas = 0 ∨ FctMintCalculator.halving_adjusted_target blk ≠ 0) →
      min (prev_rate * 2 % 2 ^ 128) FctMintCalculator.MAX_RATE < max (prev_rate / 2) 1 →
      FctMintCalculator.compute_new_rate blk prev_rate prev_cum_gas = none) := by
  intro blk pr pc hblk
  have hb : FctMintCalculator.is_first_block_in_period blk = true := by
    simp [FctMintCalculator.is_first_block_in_period, FctMintCalculator.ADJUSTMENT_PERIOD, hblk]
  unfold FctMintCalculator.compute_new_rate FctMintCalculator.clampRate
    FctMintCalculator.MAX_ADJUSTMENT_FACTOR FctMintCalculator.MIN_RATE
  rw [if_pos hb]
  refine ⟨?_, ?_, ?_, ?_⟩
  · intro hpc ht
    rw [if_neg hpc, if_pos ht]
  · intro hpc hcl
    rw [if_pos hpc, if_neg (not_lt.mpr hcl)]
  · intro hpc ht hcl
    rw [if_neg hpc, if_neg ht, if_neg (not_lt.mpr hcl)]
  · rintro (hpc | ht) hcl
    · rw [if_pos hpc, if_pos hcl]
    · by_cases hpc : pc = 0
      · rw [if_pos hpc, if_pos hcl]
      · rw [if_neg hpc, if_neg ht, if_pos hcl]

/-- C4 witness (the spec's Scenario E): at block `ADJUSTMENT_PERIOD` with
`prev_rate = INITIAL_RATE` and `prev_cum_gas = 1`, the rate doubles to
`1_600_000_000_000_000`. -/
theorem c4_witness :
    FctMintCalculator.compute_new_rate 10000 FctMintCalculator.INITIAL_RATE 1 =
      some 1600000000000000 := by
  have h := (c4_amended_rate_clamp 10000 FctMintCalculator.INITIAL_RATE 1 (by norm_num)).2.2.1
    (by decide) (by decide) (by decide)
  rw [h]
  decide

/-- C7: on a length mismatch (2 transactions, 1 receipt) the function does
not fail: in release builds the `debug_assert_eq!` is compiled out and
`Iterator::zip` silently truncates to the shorter sequence, so the result is
the one computed from the truncated pairing. -/
theorem c7_length_mismatch_truncates :
    derive_facet_deposits [txA, txA] [receiptOkNoLogs] 16436858 1
        FctMintCalculator.INITIAL_RATE 0 =
      derive_facet_deposits [txA] [receiptOkNoLogs] 16436858 1
        FctMintCalculator.INITIAL_RATE 0 ∧
    derive_facet_deposits [txA, txA] [receiptOkNoLogs] 16436858 1
        FctMintCalculator.INITIAL_RATE 0 =
      some ([depositA], FctMintCalculator.INITIAL_RATE, 576) := by
  refine ⟨by decide, by decide⟩

/-- C8 counterexample: an unsupported-variant transaction whose receipt
carries a decodable facet log does contribute: it produces a log-path deposit
(`from = alias(log.address)`, zero source hash) and 288 gas.  The aliased
emitter equals the spec's Scenario-B value. -/
theorem c8_counterexample :
    derive_facet_deposits [txOther] [receiptWithLog] 16436858 5
        FctMintCalculator.INITIAL_RATE 0 =
      some ([TxDeposit.mk 0 (alias_l1_to_l2 emitterB) (some addr11)
        (some 230400000000000000) 0 1000000 false [0x12, 0x34]],
        FctMintCalculator.INITIAL_RATE, 288) ∧
    alias_l1_to_l2 emitterB = ⟨0xec9ec4ac38c094746529a14be18d99c18ecafebd, by norm_num⟩ ∧
    txOther.variant = .other := by
  refine ⟨by decide, by decide, rfl⟩

/-- C8 (amended): an unsupported-variant transaction is treated as if it had
no `to`, empty input and a zero hash — its calldata path can never apply —
but its receipt's logs are still scanned, so it behaves exactly like a
supported transaction with no `to` and empty input. -/
theorem c8_amended_unknown_variant :
    ∀ (cid : Nat) (tx : TxEnvelope) (receipt : Receipt), tx.variant = .other →
      extractFacetPayload cid tx receipt = extractFacetPayload cid strippedTx receipt := by
  intro cid tx receipt h
  unfold extractFacetPayload effectiveHash effectiveToInput strippedTx
  rw [h]
  simp

/-- C8 witness: the amended statement applied to `txOther` and a receipt
carrying a decodable facet log. -/
theorem c8_witness :
    extractFacetPayload 16436858 txOther receiptWithLog =
      extractFacetPayload 16436858 strippedTx receiptWithLog :=
  c8_amended_unknown_variant 16436858 txOther receiptWithLog rfl

/-- C9: `alias_l1_to_l2` adds `0x1111000000000000000000000000000000001111`
modulo `2^160` to the address value, and it is a bijection on 20-byte
addresses. -/
theorem c9_alias_offset_bijective :
    (∀ a : Address, (alias_l1_to_l2 a).val =
      (a.val + 0x1111000000000000000000000000000000001111) % 2 ^ 160) ∧
    Function.Bijective alias_l1_to_l2 := by
  refine ⟨fun a => rfl, ?_, ?_⟩
  · intro a b h
    have hv : (alias_l1_to_l2 a).val = (alias_l1_to_l2 b).val := congrArg Fin.val h
    unfold alias_l1_to_l2 at hv
    have hab : a.val ≡ b.val [MOD 2 ^ 160] := Nat.ModEq.add_right_cancel' ALIAS_OFFSET hv
    apply Fin.ext
    calc a.val = a.val % 2 ^ 160 := (Nat.mod_eq_of_lt a.isLt).symm
      _ = b.val % 2 ^ 160 := hab
      _ = b.val := Nat.mod_eq_of_lt b.isLt
  · intro y
    have hoffle : ALIAS_OFFSET ≤ 2 ^ 160 := by norm_num [ALIAS_OFFSET]
    refine ⟨⟨(y.val + (2 ^ 160 - ALIAS_OFFSET)) % 2 ^ 160, Nat.mod_lt _ (by positivity)⟩, ?_⟩
    apply Fin.ext
    show ((y.val + (2 ^ 160 - ALIAS_OFFSET)) % 2 ^ 160 + ALIAS_OFFSET) % 2 ^ 160 = y.val
    rw [Nat.mod_add_mod, Nat.add_assoc, Nat.sub_add_cancel hoffle, Nat.add_mod_right]
    exact Nat.mod_eq_of_lt y.isLt

/-- C10: at period-boundary blocks `compute_new_rate` never panics when
`1 ≤ prev_rate ≤ MAX_RATE`, but it is not total: with `prev_rate = 0` and
non-zero gas the clamp is called with lower bound 1 and upper bound 0; with
`prev_rate = 2*MAX_RATE + 2` the lower bound `prev_rate/2` exceeds
`MAX_RATE`; and with `prev_rate = 2^127` the u128 product `prev_rate * 2`
overflows (wraps to 0), emptying the clamp interval. -/
theorem c10_panic_freedom_and_panics :
    (∀ blk prev_rate cum : Nat, blk % 10000 = 0 → 1 ≤ prev_rate →
      prev_rate ≤ FctMintCalculator.MAX_RATE →
      (FctMintCalculator.compute_new_rate blk prev_rate cum).isSome) ∧
    FctMintCalculator.compute_new_rate 10000 0 5 = none ∧
    FctMintCalculator.compute_new_rate 10000 (2 * FctMintCalculator.MAX_RATE + 2) 0 = none ∧
    FctMintCalculator.compute_new_rate 10000 (2 ^ 127) 0 = none ∧
    2 ^ 127 * FctMintCalculator.MAX_ADJUSTMENT_FACTOR % 2 ^ 128 = 0 := by
  refine ⟨?_, by decide, by decide, by decide, by decide⟩
  intro blk pr cum hblk h1 h2
  have hb : FctMintCalculator.is_first_block_in_period blk = true := by
    simp [FctMintCalculator.is_first_block_in_period, FctMintCalculator.ADJUSTMENT_PERIOD, hblk]
  unfold FctMintCalculator.compute_new_rate
  rw [if_pos hb]
  by_cases hc : cum = 0
  · rw [if_pos hc]
    exact clampRate_isSome _ _ h1 h2
  · rw [if_neg hc]
    by_cases ht : FctMintCalculator.halving_adjusted_target blk = 0
    · rw [if_pos ht]
      rfl
    · rw [if_neg ht]
      exact clampRate_isSome _ _ h1 h2

/-- C10 witness: panic-freedom applied at block 10000, `prev_rate =
INITIAL_RATE`, zero gas. -/
theorem c10_witness :
    (FctMintCalculator.compute_new_rate 10000 FctMintCalculator.INITIAL_RATE 0).isSome :=
  c10_panic_freedom_and_panics.1 10000 FctMintCalculator.INITIAL_RATE 0 (by norm_num)
    (by decide) (by decide)

/-- Characterization of `derive_facet_deposits` when the rate computation
succeeds. -/
theorem derive_eq_some (txs : List TxEnvelope) (receipts : List Receipt)
    (cid blk pr pc r : Nat)
    (hr : FctMintCalculator.compute_new_rate blk pr pc = some r) :
    derive_facet_deposits txs receipts cid blk pr pc =
      some (((extractedPayloads txs receipts cid).map (fun x =>
          ({ x.1 with mint := (FctMintCalculator.calculate_mint_amount
              x.1.l1_data_gas_used r) }, x.2))).map
            (fun x => x.1.into_deposit x.2.1 x.2.2),
        r,
        if FctMintCalculator.is_first_block_in_period blk then
          ((extractedPayloads txs receipts cid).map (fun x => x.1.l1_data_gas_used)).sum % 2 ^ 64
        else
          (pc + ((extractedPayloads txs receipts cid).map
            (fun x => x.1.l1_data_gas_used)).sum % 2 ^ 64) % 2 ^ 128) := by
  unfold derive_facet_deposits
  rw [hr]

/-- `derive_facet_deposits` propagates the rate-computation panic. -/
theorem derive_eq_none (txs : List TxEnvelope) (receipts : List Receipt)
    (cid blk pr pc : Nat)
    (hr : FctMintCalculator.compute_new_rate blk pr pc = none) :
    derive_facet_deposits txs receipts cid blk pr pc = none := by
  unfold derive_facet_deposits
  rw [hr]

/-- C1 counterexample: a successful transaction to the inbox with non-empty,
non-decoding calldata (`0xde`: wrong prefix) whose receipt carries a log with
the inbox topic and decodable data produces NO deposit at all — the failed
calldata path consumes the transaction and the log path is never tried. -/
theorem c1_counterexample :
    decode_facet_payload [(0xde : Byte)] 16436858 false = .error (.WrongPrefix 0xde) ∧
    txBadCalldata.«to» = some FACET_INBOX_ADDRESS ∧
    txBadCalldata.input = [(0xde : Byte)] ∧
    logB.topics.head? = some FACET_LOG_INBOX_EVENT_SIG ∧
    decode_facet_payload logB.data 16436858 true = .ok payloadALog ∧
    derive_facet_deposits [txBadCalldata] [receiptWithLog] 16436858 5
        FctMintCalculator.INITIAL_RATE 0 =
      some ([], FctMintCalculator.INITIAL_RATE, 0) := by
  refine ⟨by decide, by decide, by decide, by decide, by decide, by decide⟩

/-- C1 (amended): for a successful transaction addressing the inbox with
non-empty input whose calldata fails to decode, the transaction is skipped
entirely: the calldata path consumes it and the log path is not taken, so it
contributes no deposit (the log path runs only when the calldata path does
not apply at all). -/
theorem c1_amended_decode_failure_skips_tx :
    ∀ (cid : Nat) (tx : TxEnvelope) (receipt : Receipt) (e : DecodeError),
    tx.variant ≠ .other →
    tx.«to» = some FACET_INBOX_ADDRESS →
    tx.input ≠ [] →
    decode_facet_payload tx.input cid false = .error e →
    extractFacetPayload cid tx receipt = none := by
  intro cid tx receipt e hv hto hin hdec
  unfold extractFacetPayload
  by_cases hs : receipt.status ≠ .eip658 true
  · rw [if_pos hs]
  · rw [if_neg hs, effectiveToInput_of_supported tx hv]
    rw [if_pos ⟨hto, hin⟩, hdec]

/-- C1 witness: the amended statement applied to the counterexample's
transaction and receipt. -/
theorem c1_witness :
    extractFacetPayload 16436858 txBadCalldata receiptWithLog = none :=
  c1_amended_decode_failure_skips_tx 16436858 txBadCalldata receiptWithLog
    (.WrongPrefix 0xde) (by decide) (by decide) (by decide) (by decide)

/-- C5: every L1 transaction yields at most one deposit, so
`len(deposits) ≤ len(txs)`; and for a successful transaction addressing the
inbox with a validly-decoding calldata payload which also carries a matching
decodable log, exactly one deposit is produced — the calldata-path one, with
`from` the recovered signer (not the aliased log emitter). -/
theorem c5_length_bound_and_calldata_dominance :
    (∀ (txs : List TxEnvelope) (receipts : List Receipt) (cid blk pr pc : Nat)
        (d : List TxDeposit) (nr nc : Nat),
      derive_facet_deposits txs receipts cid blk pr pc = some (d, nr, nc) →
      d.length ≤ txs.length) ∧
    (∀ (tx : TxEnvelope) (receipt : Receipt) (cid blk pr pc : Nat) (p : FacetPayload)
        (log : Log) (q : FacetPayload) (d : List TxDeposit) (nr nc : Nat),
      receipt.status = .eip658 true →
      tx.variant ≠ .other →
      tx.«to» = some FACET_INBOX_ADDRESS →
      tx.input ≠ [] →
      decode_facet_payload tx.input cid false = .ok p →
      log ∈ receipt.logs →
      log.topics.head? = some FACET_LOG_INBOX_EVENT_SIG →
      decode_facet_payload log.data cid true = .ok q →
      derive_facet_deposits [tx] [receipt] cid blk pr pc = some (d, nr, nc) →
      d = [({ p with mint := (FctMintCalculator.calculate_mint_amount
          p.l1_data_gas_used nr) }).into_deposit
          (tx.recovered_signer.getD Address.zero) tx.hash]) := by
  constructor
  · intro txs receipts cid blk pr pc d nr nc h
    cases hr : FctMintCalculator.compute_new_rate blk pr pc with
    | none =>
      rw [derive_eq_none txs receipts cid blk pr pc hr] at h
      exact Option.noConfusion h
    | some r =>
      rw [derive_eq_some txs receipts cid blk pr pc r hr] at h
      simp only [Option.some.injEq, Prod.mk.injEq] at h
      obtain ⟨hd, hnr, hnc⟩ := h
      rw [← hd]
      simp only [List.length_map]
      calc (extractedPayloads txs receipts cid).length
          ≤ (txs.zip receipts).length := List.length_filterMap_le _ _
        _ ≤ txs.length := by
            rw [List.length_zip]
            omega
  · intro tx receipt cid blk pr pc p log q d nr nc hst hv hto hin hdec hlog htopic hqdec h
    have hext : extractFacetPayload cid tx receipt =
        some (p, tx.recovered_signer.getD Address.zero, tx.hash) := by
      unfold extractFacetPayload
      rw [if_neg (not_not_intro hst), effectiveToInput_of_supported tx hv]
      rw [if_pos ⟨hto, hin⟩, hdec, effectiveHash_of_supported tx hv]
    have hextr : extractedPayloads [tx] [receipt] cid =
        [(p, tx.recovered_signer.getD Address.zero, tx.hash)] := by
      unfold extractedPayloads
      simp [hext]
    cases hr : FctMintCalculator.compute_new_rate blk pr pc with
    | none =>
      rw [derive_eq_none [tx] [receipt] cid blk pr pc hr] at h
      exact Option.noConfusion h
    | some r =>
      rw [derive_eq_some [tx] [receipt] cid blk pr pc r hr, hextr] at h
      simp only [Option.some.injEq, Prod.mk.injEq, List.map_cons, List.map_nil] at h
      obtain ⟨hd, hnr, hnc⟩ := h
      rw [← hd, hnr]

/-- C5 witness: dominance applied to `txA` together with a receipt that also
carries a decodable facet log. -/
theorem c5_witness :
    [depositA] = [({ payloadA with mint := (FctMintCalculator.calculate_mint_amount
        payloadA.l1_data_gas_used FctMintCalculator.INITIAL_RATE) }).into_deposit
        (txA.recovered_signer.getD Address.zero) txA.hash] :=
  c5_length_bound_and_calldata_dominance.2 txA receiptWithLog 16436858 1
    FctMintCalculator.INITIAL_RATE 0 payloadA logB payloadALog [depositA]
    FctMintCalculator.INITIAL_RATE 576 (by decide) (by decide) (by decide) (by decide)
    (by decide) (by decide) (by decide) (by decide) (by decide)

/-- C3 counterexample: `2^59` copies of Scenario A's transaction contribute
`576 * 2^59 = 9 * 2^65` data gas; the u128 sum is `9 * 2^65`, but the code's
u64 sum wraps to 0, and at the boundary block 0 the returned `new_cum_gas`
is 0, not the u128 sum. -/
theorem c3_counterexample :
    (derive_facet_deposits (List.replicate (2 ^ 59) txA)
        (List.replicate (2 ^ 59) receiptOkNoLogs) 16436858 0
        FctMintCalculator.INITIAL_RATE 0).map (fun r => r.2.2) = some 0 ∧
    ((extractedPayloads (List.replicate (2 ^ 59) txA)
        (List.replicate (2 ^ 59) receiptOkNoLogs) 16436858).map
      (fun x => x.1.l1_data_gas_used)).sum = 576 * 2 ^ 59 ∧
    (0 : Nat) ≠ 576 * 2 ^ 59 := by
  have hext : extractFacetPayload 16436858 txA receiptOkNoLogs =
      some (payloadA, signerA, 0xabcd) := by decide
  have he : extractedPayloads (List.replicate (2 ^ 59) txA)
      (List.replicate (2 ^ 59) receiptOkNoLogs) 16436858 =
      List.replicate (2 ^ 59) (payloadA, signerA, 0xabcd) := by
    unfold extractedPayloads
    rw [zip_replicate]
    exact filterMap_replicate_some (fun tr => extractFacetPayload 16436858 tr.1 tr.2)
      (txA, receiptOkNoLogs) (payloadA, signerA, 0xabcd) hext _
  have hsum : ((extractedPayloads (List.replicate (2 ^ 59) txA)
      (List.replicate (2 ^ 59) receiptOkNoLogs) 16436858).map
      (fun x => x.1.l1_data_gas_used)).sum = 576 * 2 ^ 59 := by
    rw [he, List.map_replicate, List.sum_replicate, smul_eq_mul]
    norm_num [payloadA]
  refine ⟨?_, hsum, by norm_num⟩
  have hr : FctMintCalculator.compute_new_rate 0 FctMintCalculator.INITIAL_RATE 0 =
      some 1600000000000000 := by decide
  rw [derive_eq_some _ _ 16436858 0 FctMintCalculator.INITIAL_RATE 0
    1600000000000000 hr]
  rw [if_pos (by decide), hsum]
  norm_num

/-- C3 (amended): with `batch_gas` the u64 (wrapping) sum of
`l1_data_gas_used` over the extracted payloads, cast to u128: at a period
boundary `new_cum_gas = batch_gas`, otherwise
`new_cum_gas = prev_cum_gas + batch_gas` (u128, wrapping) and
`new_rate = prev_rate`.  (When the sums do not overflow these coincide with
the claim's u128 sum.) -/
theorem c3_amended_cum_gas_carry :
    ∀ (txs : List TxEnvelope) (receipts : List Receipt) (cid blk pr pc : Nat)
      (d : List TxDeposit) (nr nc : Nat),
    derive_facet_deposits txs receipts cid blk pr pc = some (d, nr, nc) →
    (blk % 10000 = 0 →
      nc = ((extractedPayloads txs receipts cid).map
        (fun x => x.1.l1_data_gas_used)).sum % 2 ^ 64) ∧
    (blk % 10000 ≠ 0 →
      nc = (pc + ((extractedPayloads txs receipts cid).map
        (fun x => x.1.l1_data_gas_used)).sum % 2 ^ 64) % 2 ^ 128 ∧
      nr = pr) := by
  intro txs receipts cid blk pr pc d nr nc h
  cases hr : FctMintCalculator.compute_new_rate blk pr pc with
  | none =>
    rw [derive_eq_none txs receipts cid blk pr pc hr] at h
    exact Option.noConfusion h
  | some r =>
    rw [derive_eq_some txs receipts cid blk pr pc r hr] at h
    simp only [Option.some.injEq, Prod.mk.injEq] at h
    obtain ⟨hd, hnr, hnc⟩ := h
    constructor
    · intro hb
      have hb' : FctMintCalculator.is_first_block_in_period blk = true := by
        simp [FctMintCalculator.is_first_block_in_period,
          FctMintCalculator.ADJUSTMENT_PERIOD, hb]
      rw [← hnc, if_pos hb']
    · intro hb
      have hb' : ¬ FctMintCalculator.is_first_block_in_period blk = true := by
        simp [FctMintCalculator.is_first_block_in_period,
          FctMintCalculator.ADJUSTMENT_PERIOD, hb]
      refine ⟨by rw [← hnc, if_neg hb'], ?_⟩
      unfold FctMintCalculator.compute_new_rate at hr
      rw [if_neg hb'] at hr
      rw [← hnr]
      exact (Option.some.inj hr).symm

/-- C3 witness: the amended carry equation at a non-boundary block with no
transactions. -/
theorem c3_witness :
    (7 : Nat) = (7 + ((extractedPayloads [] [] 1).map
      (fun x => x.1.l1_data_gas_used)).sum % 2 ^ 64) % 2 ^ 128 ∧ (9 : Nat) = 9 :=
  (c3_amended_cum_gas_carry [] [] 1 5 9 7 [] 9 7 (by decide)).2 (by norm_num)

/-! ## Equation lemmas for `decode_facet_payload` -/

theorem decode_cons_wrongbyte (b : Byte) (rest : List Byte) (cid : Nat) (flag : Bool)
    (hb : b ≠ FACET_TX_TYPE) :
    decode_facet_payload (b :: rest) cid flag = .error (.WrongPrefix b) := by
  simp only [decode_facet_payload]
  rw [if_pos hb]

theorem decode_cons_rlp_err (rest : List Byte) (cid : Nat) (flag : Bool) (e : RlpError)
    (hr : decodeFacetPayloadRlp rest = .error e) :
    decode_facet_payload (FACET_TX_TYPE :: rest) cid flag = .error (.Rlp e) := by
  simp only [decode_facet_payload]
  rw [if_neg (by simp), hr]

theorem decode_cons_rlp_ok (rest : List Byte) (cid : Nat) (flag : Bool)
    (rp : FacetPayloadRlp) (r0 : List Byte)
    (hr : decodeFacetPayloadRlp rest = .ok (rp, r0)) :
    decode_facet_payload (FACET_TX_TYPE :: rest) cid flag =
      (if rp.chain_id ≠ cid then .error (.BadChainId rp.chain_id cid)
       else if rp.«to».length = 0 then
        .ok (FacetPayload.mk none rp.value rp.gas_limit rp.data
          (FctMintCalculator.calculate_data_gas_used (FACET_TX_TYPE :: rest) flag) 0)
       else if rp.«to».length = 20 then
        .ok (FacetPayload.mk (some (addressOfBytes20 rp.«to»)) rp.value rp.gas_limit rp.data
          (FctMintCalculator.calculate_data_gas_used (FACET_TX_TYPE :: rest) flag) 0)
       else .error (.Rlp (.invalidToLength rp.«to».length))) := by
  simp only [decode_facet_payload]
  rw [if_neg (by simp), hr]

/-- C6: `decode_facet_payload` fails with `Short` iff the input is empty;
with `WrongPrefix(b)` iff the first byte `b` differs from `0x46`; with
`Rlp(..)` on any structural RLP error and on a `to` field of length other
than 0 or 20; with `BadChainId(got, expected)` exactly when the decoded
chain id differs from the expected one; and on success the payload has
`mint = 0` and `l1_data_gas_used` computed over the entire original bytes
(prefix included) with the `contract_initiated` flag. -/
theorem c6_decode_error_characterization :
    ∀ (bytes : List Byte) (cid : Nat) (flag : Bool),
    (decode_facet_payload bytes cid flag = .error .Short ↔ bytes = []) ∧
    (∀ b : Byte, decode_facet_payload bytes cid flag = .error (.WrongPrefix b) ↔
      (bytes.head? = some b ∧ b ≠ FACET_TX_TYPE)) ∧
    (∀ rest : List Byte, bytes = FACET_TX_TYPE :: rest →
      (∀ e, decodeFacetPayloadRlp rest = .error e →
        decode_facet_payload bytes cid flag = .error (.Rlp e)) ∧
      (∀ (rp : FacetPayloadRlp) (r0 : List Byte), decodeFacetPayloadRlp rest = .ok (rp, r0) →
        (rp.chain_id ≠ cid →
          decode_facet_payload bytes cid flag = .error (.BadChainId rp.chain_id cid)) ∧
        (rp.chain_id = cid → rp.«to».length ≠ 0 → rp.«to».length ≠ 20 →
          decode_facet_payload bytes cid flag =
            .error (.Rlp (.invalidToLength rp.«to».length))))) ∧
    (∀ g e, decode_facet_payload bytes cid flag = .error (.BadChainId g e) →
      g ≠ cid ∧ e = cid) ∧
    (∀ p, decode_facet_payload bytes cid flag = .ok p →
      p.mint = 0 ∧
      p.l1_data_gas_used = FctMintCalculator.calculate_data_gas_used bytes flag) := by
  intro bytes cid flag
  cases bytes with
  | nil =>
    refine ⟨by simp [decode_facet_payload], ?_, ?_, ?_, ?_⟩
    · intro b
      simp [decode_facet_payload]
    · intro rest h
      exact List.noConfusion h
    · intro g e h
      simp [decode_facet_payload] at h
    · intro p h
      simp [decode_facet_payload] at h
  | cons b rest =>
    by_cases hb : b = FACET_TX_TYPE
    · subst hb
      cases hr : decodeFacetPayloadRlp rest with
      | error e0 =>
        have hdec := decode_cons_rlp_err rest cid flag e0 hr
        refine ⟨?_, ?_, ?_, ?_, ?_⟩
        · rw [hdec]
          simp
        · intro b'
          rw [hdec]
          refine iff_of_false (by simp) ?_
          rintro ⟨h1, h2⟩
          simp at h1
          exact h2 h1.symm
        · intro rest' heq
          obtain ⟨-, hrr⟩ := List.cons.inj heq
          subst hrr
          refine ⟨?_, ?_⟩
          · intro e he
            have he' : e = e0 := by
              rw [hr] at he
              exact (Except.error.inj he).symm
            subst he'
            exact hdec
          · intro rp' r' hok
            rw [hr] at hok
            exact Except.noConfusion hok
        · intro g e h
          rw [hdec] at h
          simp at h
        · intro p h
          rw [hdec] at h
          simp at h
      | ok pr0 =>
        obtain ⟨rp, r0⟩ := pr0
        have hdec := decode_cons_rlp_ok rest cid flag rp r0 hr
        by_cases hc : rp.chain_id = cid
        · have hcne : ¬ rp.chain_id ≠ cid := not_not_intro hc
          by_cases h0 : rp.«to».length = 0
          · have hd2 : decode_facet_payload (FACET_TX_TYPE :: rest) cid flag =
                .ok (FacetPayload.mk none rp.value rp.gas_limit rp.data
                  (FctMintCalculator.calculate_data_gas_used (FACET_TX_TYPE :: rest) flag)
                  0) := by
              rw [hdec, if_neg hcne, if_pos h0]
            refine ⟨?_, ?_, ?_, ?_, ?_⟩
            · rw [hd2]
              simp
            · intro b'
              rw [hd2]
              refine iff_of_false (by simp) ?_
              rintro ⟨h1, h2⟩
              simp at h1
              exact h2 h1.symm
            · intro rest' heq
              obtain ⟨-, hrr⟩ := List.cons.inj heq
              subst hrr
              refine ⟨?_, ?_⟩
              · intro e he
                rw [hr] at he
                exact Except.noConfusion he
              · intro rp' r' hok
                rw [hr] at hok
                have h' := Except.ok.inj hok
                injection h' with h1 h2
                subst h1
                refine ⟨?_, ?_⟩
                · intro hne
                  exact absurd hc hne
                · intro hcc hl0 hl20
                  exact absurd h0 hl0
            · intro g e h
              rw [hd2] at h
              simp at h
            · intro p h
              rw [hd2] at h
              have h' := Except.ok.inj h
              subst h'
              exact ⟨rfl, rfl⟩
          · by_cases h20 : rp.«to».length = 20
            · have hd2 : decode_facet_payload (FACET_TX_TYPE :: rest) cid flag =
                  .ok (FacetPayload.mk (some (addressOfBytes20 rp.«to»)) rp.value
                    rp.gas_limit rp.data
                    (FctMintCalculator.calculate_data_gas_used (FACET_TX_TYPE :: rest) flag)
                    0) := by
                rw [hdec, if_neg hcne, if_neg h0, if_pos h20]
              refine ⟨?_, ?_, ?_, ?_, ?_⟩
              · rw [hd2]
                simp
              · intro b'
                rw [hd2]
                refine iff_of_false (by simp) ?_
                rintro ⟨h1, h2⟩
                simp at h1
                exact h2 h1.symm
              · intro rest' heq
                obtain ⟨-, hrr⟩ := List.cons.inj heq
                subst hrr
                refine ⟨?_, ?_⟩
                · intro e he
                  rw [hr] at he
                  exact Except.noConfusion he
                · intro rp' r' hok
                  rw [hr] at hok
                  have h' := Except.ok.inj hok
                  injection h' with h1 h2
                  subst h1
                  refine ⟨?_, ?_⟩
                  · intro hne
                    exact absurd hc hne
                  · intro hcc hl0 hl20
                    exact absurd h20 hl20
              · intro g e h
                rw [hd2] at h
                simp at h
              · intro p h
                rw [hd2] at h
                have h' := Except.ok.inj h
                subst h'
                exact ⟨rfl, rfl⟩
            · have hd2 : decode_facet_payload (FACET_TX_TYPE :: rest) cid flag =
                  .error (.Rlp (.invalidToLength rp.«to».length)) := by
                rw [hdec, if_neg hcne, if_neg h0, if_neg h20]
              refine ⟨?_, ?_, ?_, ?_, ?_⟩
              · rw [hd2]
                simp
              · intro b'
                rw [hd2]
                refine iff_of_false (by simp) ?_
                rintro ⟨h1, h2⟩
                simp at h1
                exact h2 h1.symm
              · intro rest' heq
                obtain ⟨-, hrr⟩ := List.cons.inj heq
                subst hrr
                refine ⟨?_, ?_⟩
                · intro e he
                  rw [hr] at he
                  exact Except.noConfusion he
                · intro rp' r' hok
                  rw [hr] at hok
                  have h' := Except.ok.inj hok
                  injection h' with h1 h2
                  subst h1
                  refine ⟨?_, ?_⟩
                  · intro hne
                    exact absurd hc hne
                  · intro hcc hl0 hl20
                    exact hd2
              · intro g e h
                rw [hd2] at h
                simp at h
              · intro p h
                rw [hd2] at h
                simp at h
        · have hd2 : decode_facet_payload (FACET_TX_TYPE :: rest) cid flag =
              .error (.BadChainId rp.chain_id cid) := by
            rw [hdec, if_pos hc]
          refine ⟨?_, ?_, ?_, ?_, ?_⟩
          · rw [hd2]
            simp
          · intro b'
            rw [hd2]
            refine iff_of_false (by simp) ?_
            rintro ⟨h1, h2⟩
            simp at h1
            exact h2 h1.symm
          · intro rest' heq
            obtain ⟨-, hrr⟩ := List.cons.inj heq
            subst hrr
            refine ⟨?_, ?_⟩
            · intro e he
              rw [hr] at he
              exact Except.noConfusion he
            · intro rp' r' hok
              rw [hr] at hok
              have h' := Except.ok.inj hok
              injection h' with h1 h2
              subst h1
              refine ⟨?_, ?_⟩
              · intro hne
                exact hd2
              · intro hcc hl0 hl20
                exact absurd hcc hc
          · intro g e h
            rw [hd2] at h
            have h' := Except.error.inj h
            injection h' with h1 h2
            subst h1
            subst h2
            exact ⟨hc, rfl⟩
          · intro p h
            rw [hd2] at h
            simp at h
    · have hdec := decode_cons_wrongbyte b rest cid flag hb
      refine ⟨?_, ?_, ?_, ?_, ?_⟩
      · rw [hdec]
        simp
      · intro b'
        rw [hdec]
        constructor
        · intro h
          have h' := Except.error.inj h
          injection h' with h1
          subst h1
          exact ⟨rfl, hb⟩
        · rintro ⟨h1, h2⟩
          simp at h1
          subst h1
          rfl
      · intro rest' heq
        obtain ⟨h1, -⟩ := List.cons.inj heq
        exact absurd h1 hb
      · intro g e h
        rw [hdec] at h
        simp at h
      · intro p h
        rw [hdec] at h
        simp at h

/-- C6 witness: the characterization applied to the spec's Scenario D input
`0xdeadbeef` (truncated to its first two bytes), giving `WrongPrefix(0xde)`. -/
theorem c6_witness :
    decode_facet_payload [(0xde : Byte), 0xad] 16436858 false =
      .error (.WrongPrefix 0xde) :=
  ((c6_decode_error_characterization [(0xde : Byte), 0xad] 16436858 false).2.1 0xde).mpr
    (by decide)

end Kona
